import Mathlib

/-!
Shallow embedding of the refond_backend core (taxpayer registry service):
data model (`api/v1/models/{user,taxpayer,audit_log}.py`), the taxpayer
service (`api/v1/services/taxpayer_service.py`), the audit logger
(`api/v1/services/audit_service.py`), the authentication service
(`api/v1/services/auth_service.py`) and the permission-relevant slices of
the HTTP routes (`api/v1/routes/taxpayer.py`).

The database session is modelled explicitly: committed rows versus rows
added/flushed in the open transaction, with `commit` / `rollback` /
`close` mirroring SQLAlchemy `AsyncSession` semantics as used by the code
(queries see committed plus pending rows of the same session; `get_db` in
`api/db/session.py` closes the session without committing, discarding
pending rows). The model is sequential: store-level arbitration of
concurrent writers (the `IntegrityError` branches) is outside it, as every
uniqueness conflict reachable sequentially is caught by the explicit
pre-checks of the services.
-/

namespace Refond

/-- Embedding of `UserRole` enum from `api/v1/models/user.py`. -/
inductive UserRole
  | ADMIN
  | ACCOUNTANT
  | EMPLOYER
  | ORGANIZATION
  deriving DecidableEq, Repr

/-- Embedding of `TaxpayerStatus` enum from `api/v1/models/taxpayer.py`. -/
inductive TaxpayerStatus
  | active
  | inactive
  | pending
  | suspended
  | deleted
  deriving DecidableEq, Repr

/-- Embedding of `TaxType` enum from `api/v1/models/taxpayer.py`. -/
inductive TaxType
  | PAYE
  | VAT
  | CIT
  | WHT
  | PIT
  deriving DecidableEq, Repr

/-- The application error taxonomy of `api/utils/exceptions.py` (imported
by the services; the module itself is not under `src/`, but every raise
site names the class, and the taxonomy in spec §7 matches one-to-one), plus
the Python `AttributeError`/`TypeError`, which are not application errors
but can escape the service code. -/
inductive AppError
  | notFound (msg : String)
  | badRequest (msg : String)
  | conflict (msg : String)
  | forbidden (msg : String)
  | unauthorized (msg : String)
  | attributeError (msg : String)
  | typeError (msg : String)
  deriving DecidableEq, Repr

def AppError.isForbidden : AppError → Bool
  | .forbidden _ => true
  | _ => false

def AppError.isConflict : AppError → Bool
  | .conflict _ => true
  | _ => false

/-- Embedding of `User` model (`api/v1/models/user.py`). Ids are opaque; we use `Nat`.
Fields not touched by the embedded operations (`name`, `is_verified`,
timestamps) are kept for shape. -/
structure User where
  id : Nat
  name : String
  email : String
  password_hash : String
  role : UserRole
  organization_id : Option Nat
  is_active : Bool
  deriving DecidableEq, Repr

/-- Embedding of `Taxpayer` model (`api/v1/models/taxpayer.py`). All mapped columns are
present; dates/timestamps are `Nat` ticks, the region enum is carried as
its string value (its 37 members are inert for every embedded operation).
The free-form JSONB extension column is `extra_data` (line 102 of the
model); note well: the model maps NO column named `metadata` — on a
`Taxpayer` instance loaded from the store, the Python attribute `metadata`
resolves to the `MetaData` class attribute of the declarative registry (see
`pyGetattrMetadata` below). -/
structure Taxpayer where
  id : Nat
  full_name : String
  tin : Option String
  bvn : Option String
  nin : Option String
  email : Option String
  phone_number : Option String
  address : Option String
  city : Option String
  state : String
  tax_type : TaxType
  business_name : Option String
  rc_number : Option String
  business_type : Option String
  industry : Option String
  employer_id : Option Nat
  employment_status : Option String
  job_title : Option String
  employment_date : Option Nat
  status : TaxpayerStatus
  is_verified : Bool
  verification_date : Option Nat
  last_filing_date : Option Nat
  extra_data : List (String × Int)
  created_by : Option Nat
  updated_by : Option Nat
  created_at : Nat
  updated_at : Option Nat
  deriving DecidableEq, Repr

/-- Embedding of `AuditLog` model (`api/v1/models/audit_log.py`). The JSONB `details`
payload is carried as an opaque string tag (no embedded operation inspects
it). -/
structure AuditLog where
  id : Nat
  user_id : Nat
  entity_type : String
  entity_id : Nat
  action : String
  details : String
  ip_address : Option String
  user_agent : Option String
  timestamp : Nat
  deriving DecidableEq, Repr

/-- The backing store plus one open session, as the service code sees it:
`taxpayers` / `audit_logs` / `orgs` are committed (durable) state;
`pending_taxpayers` / `pending_audit` are rows added (and possibly
flushed) in the open transaction, visible to queries on this session but
not durable. `commits` counts `db.commit()` calls. `clock` feeds ids and
timestamps. -/
structure DBState where
  taxpayers : List Taxpayer
  audit_logs : List AuditLog
  orgs : List Nat
  pending_taxpayers : List Taxpayer
  pending_audit : List AuditLog
  commits : Nat
  clock : Nat
  deriving DecidableEq, Repr

/-- Rows a query on this session sees: committed rows plus rows added in
the open transaction (SQLAlchemy autoflushes pending rows before a query
in the same transaction). -/
def DBState.visibleTaxpayers (db : DBState) : List Taxpayer :=
  db.taxpayers ++ db.pending_taxpayers

/-- Embedding of `await db.commit()`: pending rows become durable. -/
def DBState.commit (db : DBState) : DBState :=
  { db with
    taxpayers := db.taxpayers ++ db.pending_taxpayers
    audit_logs := db.audit_logs ++ db.pending_audit
    pending_taxpayers := []
    pending_audit := []
    commits := db.commits + 1 }

/-- Embedding of `await db.rollback()`: pending rows are discarded. -/
def DBState.rollback (db : DBState) : DBState :=
  { db with pending_taxpayers := [], pending_audit := [] }

/-- Embedding of `get_db` in `api/db/session.py` closes the session in its `finally`
block without committing: whatever is still pending is discarded. -/
def DBState.sessionClose (db : DBState) : DBState :=
  db.rollback

/-- All audit entries this session can see (committed plus flushed). -/
def DBState.allAudit (db : DBState) : List AuditLog :=
  db.audit_logs ++ db.pending_audit

/-- Embedding of `AuditService.log_action` (`api/v1/services/audit_service.py`):
constructs the entry, `db.add`s it and `await db.flush()`es — explicitly
NOT committing ("let the main transaction handle it"). -/
def AuditService.log_action (db : DBState) (user_id : Nat) (entity_type : String)
    (entity_id : Nat) (action : String) (details : String) : AuditLog × DBState :=
  let entry : AuditLog :=
    { id := db.clock
      user_id := user_id
      entity_type := entity_type
      entity_id := entity_id
      action := action
      details := details
      ip_address := none
      user_agent := none
      timestamp := db.clock }
  (entry, { db with pending_audit := db.pending_audit ++ [entry], clock := db.clock + 1 })

/-- Embedding of `role.value` — the services compare roles by their string value. -/
def UserRole.value : UserRole → String
  | .ADMIN => "ADMIN"
  | .ACCOUNTANT => "ACCOUNTANT"
  | .EMPLOYER => "EMPLOYER"
  | .ORGANIZATION => "ORGANIZATION"

/-- Python truthiness of an optional string column/field (`None` and `""`
are falsy). -/
def optStrTruthy : Option String → Bool
  | none => false
  | some s => !s.isEmpty

/-- Embedding of `TaxpayerCreate` schema (`api/v1/schemas/taxpayer.py`). Pydantic field
validators run at request parsing, before the service sees the data; the
embedded operations receive schema-valid data. The schema field `metadata`
field (default `{}`) is carried although the ORM model maps no such
column: see `TaxpayerService.create`. -/
structure TaxpayerCreate where
  full_name : String
  tin : Option String := none
  bvn : Option String := none
  nin : Option String := none
  email : Option String := none
  phone_number : Option String := none
  address : Option String := none
  city : Option String := none
  state : String
  tax_type : TaxType := .PAYE
  business_name : Option String := none
  rc_number : Option String := none
  business_type : Option String := none
  industry : Option String := none
  employment_status : Option String := none
  job_title : Option String := none
  employment_date : Option Nat := none
  metadata : List (String × Int) := []
  employer_id : Option Nat := none
  deriving DecidableEq, Repr

/-- Embedding of `TaxpayerUpdate` schema. All fields default-unset; `model_dump` with
`exclude_unset=True` keeps only supplied keys, modelled as `Option` with
`none` = unset (the schema makes an explicit JSON `null` and an absent key
indistinguishable for the claims below). -/
structure TaxpayerUpdate where
  full_name : Option String := none
  email : Option String := none
  phone_number : Option String := none
  address : Option String := none
  city : Option String := none
  state : Option String := none
  business_name : Option String := none
  rc_number : Option String := none
  business_type : Option String := none
  industry : Option String := none
  employment_status : Option String := none
  job_title : Option String := none
  employment_date : Option Nat := none
  status : Option TaxpayerStatus := none
  metadata : Option (List (String × Int)) := none
  deriving DecidableEq, Repr

/-- Embedding of `TaxpayerFilter` schema. -/
structure TaxpayerFilter where
  state : Option String := none
  tax_type : Option TaxType := none
  status : Option TaxpayerStatus := none
  employer_id : Option Nat := none
  is_verified : Option Bool := none
  search : Option String := none
  created_after : Option Nat := none
  created_before : Option Nat := none
  deriving DecidableEq, Repr

/-- Embedding of `TaxpayerService.get_by_id`: plain lookup, no permission filtering
(`include_related` only eager-loads the employer relationship and does not
change which row is returned). -/
def TaxpayerService.get_by_id (db : DBState) (taxpayer_id : Nat) : Option Taxpayer :=
  db.visibleTaxpayers.find? (fun t => t.id == taxpayer_id)

/-- Embedding of `TaxpayerService.get_by_tin`: exact-match lookup on the unique TIN. -/
def TaxpayerService.get_by_tin (db : DBState) (tin : String) : Option Taxpayer :=
  db.visibleTaxpayers.find? (fun t => t.tin == some tin)

/-- The row `TaxpayerService.create` constructs:
`Taxpayer(**taxpayer_data.model_dump(exclude={"employer_id"}), created_by=...,
updated_by=...)` plus the column defaults of the model. The dumped `metadata`
key passes the `hasattr` check of the declarative constructor (the class has a
`metadata` attribute — the MetaData of the registry) and lands as a plain,
non-mapped instance attribute: it is never persisted, and the mapped
extension column `extra_data` keeps its column default `dict()`. -/
def mkTaxpayerRow (d : TaxpayerCreate) (u : User) (idv : Nat) : Taxpayer :=
  { id := idv
    full_name := d.full_name
    tin := d.tin
    bvn := d.bvn
    nin := d.nin
    email := d.email
    phone_number := d.phone_number
    address := d.address
    city := d.city
    state := d.state
    tax_type := d.tax_type
    business_name := d.business_name
    rc_number := d.rc_number
    business_type := d.business_type
    industry := d.industry
    employer_id := none
    employment_status := d.employment_status
    job_title := d.job_title
    employment_date := d.employment_date
    status := .pending
    is_verified := false
    verification_date := none
    last_filing_date := none
    extra_data := []
    created_by := some u.id
    updated_by := some u.id
    created_at := idv
    updated_at := none }

/-- Tail of `TaxpayerService.create` after the TIN and employer checks:
`db.add(db_taxpayer)`, `await db.commit()`, `await db.refresh(...)`, then
`AuditService.log_action(..., action="create")`, then return. Note the
order: the commit precedes the audit append, and `log_action` only
flushes. -/
def TaxpayerService.createCommitAndLog (db : DBState) (tp : Taxpayer) (u : User) :
    DBState × Except AppError Taxpayer :=
  let db1 := { db with pending_taxpayers := db.pending_taxpayers ++ [tp],
                       clock := db.clock + 1 }
  let db2 := db1.commit
  let (_, db3) := AuditService.log_action db2 u.id "taxpayer" tp.id "create" "data"
  (db3, .ok tp)

/-- Employer branch of `create` (`if taxpayer_data.employer_id:`): the
organization must exist (`BadRequest`), and a non-ADMIN actor may only
assign to their own organization (`Forbidden`). -/
def TaxpayerService.createWithEmployer (db : DBState) (d : TaxpayerCreate) (u : User) :
    DBState × Except AppError Taxpayer :=
  let tp0 := mkTaxpayerRow d u db.clock
  match d.employer_id with
  | some eid =>
      if !(db.orgs.contains eid) then
        (db, .error (.badRequest s!"Organization {eid} not found"))
      else if u.organization_id != some eid && u.role.value != "ADMIN" then
        (db, .error (.forbidden "You can only assign taxpayers to your own organization"))
      else
        TaxpayerService.createCommitAndLog db { tp0 with employer_id := some eid } u
  | none => TaxpayerService.createCommitAndLog db tp0 u

/-- Embedding of `TaxpayerService.create` (`taxpayer_service.py` lines 53-108). Error
paths all precede `db.add`, so they leave the session untouched. The
`IntegrityError` branch (lines 104-108) is unreachable in this sequential
model: every duplicate TIN visible to the session is caught by the
pre-check. Human-readable messages are carried with apostrophes elided. -/
def TaxpayerService.create (db : DBState) (d : TaxpayerCreate) (u : User) :
    DBState × Except AppError Taxpayer :=
  -- `if taxpayer_data.tin:` — TIN duplicate pre-check
  if optStrTruthy d.tin then
    let t := d.tin.getD ""
    match TaxpayerService.get_by_tin db t with
    | some _ =>
        (db, .error (.conflict s!"Taxpayer with TIN {t} already exists"))
    | none => TaxpayerService.createWithEmployer db d u
  else TaxpayerService.createWithEmployer db d u

/-- Embedding of `TaxpayerService._check_permissions` (lines 292-316). The `db`
parameter of the source function is unused; the check is pure. ADMIN:
allowed. ACCOUNTANT/EMPLOYER: `taxpayer.employer_id !=
current_user.organization_id` raises `Forbidden` (a Python `!=` between
two `None`s is `False`, so a null employer matches a null caller
organization). ORGANIZATION: always `Forbidden`. -/
def TaxpayerService.check_permissions (tp : Taxpayer) (u : User) (action : String) :
    Except AppError Unit := do
  if u.role.value == "ADMIN" then
    return ()
  if u.role.value == "ACCOUNTANT" || u.role.value == "EMPLOYER" then
    if tp.employer_id != u.organization_id then
      throw (.forbidden s!"You do not have permission to {action} this taxpayer")
  if u.role.value == "ORGANIZATION" then
    throw (.forbidden s!"Organization users cannot {action} taxpayers")
  return ()

/-- Case-insensitive substring test — `column ILIKE "%pat%"`. -/
def strContainsCI (s pat : String) : Bool :=
  let sl := s.toLower.toList
  let pl := pat.toLower.toList
  (List.range (sl.length + 1)).any (fun i => pl.isPrefixOf (sl.drop i))

/-- Embedding of `ILIKE` on a nullable column: SQL `NULL ILIKE p` is not true. -/
def ilike (col : Option String) (pat : String) : Bool :=
  match col with
  | none => false
  | some s => strContainsCI s pat

/-- The row predicate accumulated by `TaxpayerService._apply_filters`
(lines 242-290): the base permission filter (non-ADMIN callers with role
ACCOUNTANT or EMPLOYER are restricted to `employer_id ==
organization_id`; no other role is restricted), then every user-supplied
predicate, with `status` defaulting to "not deleted". Python truthiness
guards are mirrored (`search=""` is falsy and skipped). -/
def filterPred (f : TaxpayerFilter) (u : User) (t : Taxpayer) : Bool :=
  (if u.role.value != "ADMIN" then
     if u.role.value == "ACCOUNTANT" || u.role.value == "EMPLOYER" then
       t.employer_id == u.organization_id
     else true
   else true)
  && (match f.state with | some s => t.state == s | none => true)
  && (match f.tax_type with | some tt => t.tax_type == tt | none => true)
  && (match f.status with
      | some s => t.status == s
      | none => t.status != TaxpayerStatus.deleted)
  && (match f.employer_id with | some e => t.employer_id == some e | none => true)
  && (match f.is_verified with | some v => t.is_verified == v | none => true)
  && (match f.search with
      | some s =>
          if s.isEmpty then true
          else strContainsCI t.full_name s || ilike t.tin s
               || ilike t.business_name s || ilike t.email s
      | none => true)
  && (match f.created_after with | some a => decide (a ≤ t.created_at) | none => true)
  && (match f.created_before with | some b => decide (t.created_at ≤ b) | none => true)

/-- Insertion step for `ORDER BY created_at DESC`. -/
def insertByCreatedDesc (x : Taxpayer) : List Taxpayer → List Taxpayer
  | [] => [x]
  | y :: ys =>
      if x.created_at ≤ y.created_at then y :: insertByCreatedDesc x ys
      else x :: y :: ys

/-- Embedding of `ORDER BY created_at DESC` (ties in store order, which SQL leaves
unspecified). -/
def sortByCreatedDesc : List Taxpayer → List Taxpayer
  | [] => []
  | x :: xs => insertByCreatedDesc x (sortByCreatedDesc xs)

/-- Embedding of `TaxpayerService.get_all` (lines 213-239): filter, count the filtered
set before pagination, order newest-first, then `offset skip` /
`limit`. -/
def TaxpayerService.get_all (db : DBState) (f : TaxpayerFilter) (u : User)
    (skip limit : Nat) : List Taxpayer × Nat :=
  let filtered := sortByCreatedDesc (db.visibleTaxpayers.filter (filterPred f u))
  ((filtered.drop skip).take limit, filtered.length)

/-- In-place mutation of a loaded row: attribute assignment on an ORM
object marks it dirty and is written at the next flush/commit; no embedded
claim observes the window in between, so the row is rewritten directly. -/
def DBState.updateRow (db : DBState) (idv : Nat) (g : Taxpayer → Taxpayer) : DBState :=
  { db with
    taxpayers := db.taxpayers.map (fun t => if t.id == idv then g t else t)
    pending_taxpayers := db.pending_taxpayers.map (fun t => if t.id == idv then g t else t) }

/-- What the Python expression `taxpayer.metadata` can denote in
`TaxpayerService.update` / `verify_taxpayer`. -/
inductive PyVal
  | dict (entries : List (String × Int))
  | metaDataObj
  deriving DecidableEq, Repr

/-- Python attribute lookup for `taxpayer.metadata`. The `Taxpayer` model
(`api/v1/models/taxpayer.py`) maps the extension column as `extra_data`
(line 102) and maps no `metadata` column, so on an instance loaded from
the store the name `metadata` misses the instance dict and resolves to
the `MetaData` class attribute of the declarative registry. (Only an object still
held by the session that constructed it carries the non-mapped instance
shadow set in `create`; the service operations below load their target via
`get_by_id` on the request session.) -/
def pyGetattrMetadata (_t : Taxpayer) : PyVal :=
  .metaDataObj

/-- Python truthiness: `{}` is falsy, a `MetaData` object (no `__bool__`
or `__len__`) is truthy. -/
def PyVal.truthy : PyVal → Bool
  | .dict es => !es.isEmpty
  | .metaDataObj => true

/-- The `.copy()` call: dicts copy; `MetaData` has no `copy` attribute. -/
def PyVal.copyMethod : PyVal → Except AppError PyVal
  | .dict es => .ok (.dict es)
  | .metaDataObj => .error (.attributeError "MetaData object has no attribute copy")

/-- The `.update(other)` call: dict merge (right side wins); `MetaData`
has no `update` attribute. -/
def PyVal.updateMethod : PyVal → List (String × Int) → Except AppError PyVal
  | .dict es, patch =>
      .ok (.dict ((es.filter (fun kv => patch.all (fun pv => pv.1 ≠ kv.1))) ++ patch))
  | .metaDataObj, _ => .error (.attributeError "MetaData object has no attribute update")

/-- Scalar part of the `for field, value in update_dict.items(): setattr`
loop in `update` (every supplied key other than `metadata`, which the
merge branch deletes from `update_dict` when taken). -/
def applyScalarPatch (t : Taxpayer) (ud : TaxpayerUpdate) : Taxpayer :=
  { t with
    full_name := ud.full_name.getD t.full_name
    email := match ud.email with | some v => some v | none => t.email
    phone_number := match ud.phone_number with | some v => some v | none => t.phone_number
    address := match ud.address with | some v => some v | none => t.address
    city := match ud.city with | some v => some v | none => t.city
    state := ud.state.getD t.state
    business_name := match ud.business_name with | some v => some v | none => t.business_name
    rc_number := match ud.rc_number with | some v => some v | none => t.rc_number
    business_type := match ud.business_type with | some v => some v | none => t.business_type
    industry := match ud.industry with | some v => some v | none => t.industry
    employment_status := match ud.employment_status with
                         | some v => some v | none => t.employment_status
    job_title := match ud.job_title with | some v => some v | none => t.job_title
    employment_date := match ud.employment_date with
                       | some v => some v | none => t.employment_date
    status := ud.status.getD t.status }

/-- Embedding of `TaxpayerService.update` (lines 110-167). After the lookup and the
permission check, the code builds `original_data`, whose last entry is
`taxpayer.metadata.copy() if taxpayer.metadata else {}`; on a store-loaded
row `taxpayer.metadata` is the truthy `MetaData` class attribute and
`.copy()` raises `AttributeError`, escaping before any field is written.
The remainder (merge branch, scalar loop, stamps, commit, audit with
before/after snapshots) is kept for fidelity but is unreachable on
store-loaded rows. Note that no branch of the source touches the mapped
extension column `extra_data`. -/
def TaxpayerService.update (db : DBState) (taxpayer_id : Nat) (ud : TaxpayerUpdate)
    (u : User) : DBState × Except AppError Taxpayer :=
  match TaxpayerService.get_by_id db taxpayer_id with
  | none => (db, .error (.notFound s!"Taxpayer {taxpayer_id} not found"))
  | some tp =>
    match TaxpayerService.check_permissions tp u "update" with
    | .error e => (db, .error e)
    | .ok _ =>
      let mval := pyGetattrMetadata tp
      match (if mval.truthy then mval.copyMethod else .ok (.dict [])) with
      | .error e => (db, .error e)
      | .ok _origMeta =>
        -- `if "metadata" in update_dict and taxpayer.metadata:` → merge via
        -- `taxpayer.metadata.update(update_dict["metadata"])`
        match (match ud.metadata with
               | some patch =>
                   if (pyGetattrMetadata tp).truthy then
                     ((pyGetattrMetadata tp).updateMethod patch).map (fun _ => ())
                   else Except.ok ()
               | none => Except.ok ()) with
        | .error e => (db, .error e)
        | .ok _ =>
          let tp1 := applyScalarPatch tp ud
          let tp2 := { tp1 with updated_by := some u.id, updated_at := some db.clock }
          let db1 := (db.updateRow taxpayer_id (fun _ => tp2)).commit
          let (_, db2) :=
            AuditService.log_action db1 u.id "taxpayer" taxpayer_id "update" "original-updated"
          (db2, .ok tp2)

/-- Embedding of `TaxpayerService.verify_taxpayer` (lines 318-362). Role gate: only
ADMIN or ACCOUNTANT. Ownership gate: only checked when
`taxpayer.employer_id` is truthy AND the actor is an ACCOUNTANT. With a
truthy `verification_data` payload the code would then perform
`taxpayer.metadata["verification"] = ...` — item assignment on the
`MetaData` class attribute, a `TypeError` (the route always passes no
payload). On success: set the flag/date/stamps, commit, then flush an
audit entry (action "verify"). -/
def TaxpayerService.verify_taxpayer (db : DBState) (taxpayer_id : Nat) (u : User)
    (verification_data : Option (List (String × Int))) :
    DBState × Except AppError Taxpayer :=
  match TaxpayerService.get_by_id db taxpayer_id with
  | none => (db, .error (.notFound s!"Taxpayer {taxpayer_id} not found"))
  | some tp =>
    if !(u.role.value == "ADMIN" || u.role.value == "ACCOUNTANT") then
      (db, .error (.forbidden "You do not have permission to verify taxpayers"))
    else if tp.employer_id.isSome && u.role.value == "ACCOUNTANT"
            && tp.employer_id != u.organization_id then
      (db, .error (.forbidden "You can only verify taxpayers in your organization"))
    else
      let vtruthy := match verification_data with
                     | some vd => !vd.isEmpty
                     | none => false
      if vtruthy then
        (db, .error (.typeError "MetaData object does not support item assignment"))
      else
        let tp1 := { tp with is_verified := true, verification_date := some db.clock,
                             updated_by := some u.id, updated_at := some db.clock }
        let db1 := (db.updateRow taxpayer_id (fun _ => tp1)).commit
        let (_, db2) :=
          AuditService.log_action db1 u.id "taxpayer" taxpayer_id "verify" "verification"
        (db2, .ok tp1)

/-- Embedding of `str(e)` — the message `bulk_create` stores for a failed item. -/
def errStr : AppError → String
  | .notFound m | .badRequest m | .conflict m | .forbidden m
  | .unauthorized m | .attributeError m | .typeError m => m

/-- One iteration of the `for data in taxpayers_data:` loop of
`bulk_create`: attempt `create` (which itself commits and flushes a
"create" audit entry on success), flush a second audit entry (action
"bulk_create") on success, or capture `{input, error-message}` on any
exception and continue. -/
def TaxpayerService.bulkStep (u : User)
    (acc : List Taxpayer × List (TaxpayerCreate × String) × DBState)
    (d : TaxpayerCreate) : List Taxpayer × List (TaxpayerCreate × String) × DBState :=
  match acc with
  | (succ, failed, db) =>
    match TaxpayerService.create db d u with
    | (db1, .ok tp) =>
        let (_, db2) := AuditService.log_action db1 u.id "taxpayer" tp.id "bulk_create" "data"
        (succ ++ [tp], failed, db2)
    | (db1, .error e) => (succ, failed ++ [(d, errStr e)], db1)

/-- Embedding of `TaxpayerService.bulk_create` (lines 364-397): fold the per-item step
over the batch in order, then one final `db.commit()`. -/
def TaxpayerService.bulk_create (db : DBState) (ds : List TaxpayerCreate) (u : User) :
    (List Taxpayer × List (TaxpayerCreate × String)) × DBState :=
  match ds.foldl (TaxpayerService.bulkStep u) ([], [], db) with
  | (succ, failed, db1) => ((succ, failed), db1.commit)

/-- The user store as the authentication service queries it. -/
structure AuthDB where
  users : List User
  deriving DecidableEq, Repr

/-- External password hasher (spec §6: `verify(plaintext, opaque)` holds
exactly when the opaque value is the hash of the plaintext); modelled with
a transparent injective hash. -/
def hash_password (p : String) : String :=
  "hashed:" ++ p

def verify_password (plain hashv : String) : Bool :=
  hashv == hash_password plain

/-- Embedding of `AuthService.authenticate_user` (`auth_service.py` lines 14-30), in
source order: lookup by email (`None` → return `None`), then password
verification (mismatch → return `None`), then the active-flag check
(inactive → raise `Unauthorized`), else return the user. -/
def AuthService.authenticate_user (db : AuthDB) (email password : String) :
    Except AppError (Option User) :=
  match db.users.find? (fun u => u.email == email) with
  | none => .ok none
  | some user =>
    if !(verify_password password user.password_hash) then .ok none
    else if !user.is_active then .error (.unauthorized "User account is inactive")
    else .ok (some user)

/-- Embedding of `AuthService.require_role`: `Forbidden` unless `user.role.value` is in
the allowed list. -/
def AuthService.require_role (u : User) (required_roles : List String) :
    Except AppError Unit :=
  if !(required_roles.contains u.role.value) then
    .error (.forbidden "Insufficient permissions")
  else .ok ()

/-! Permission-relevant slices of the HTTP handlers in
`api/v1/routes/taxpayer.py`. The `get_current_user` dependency only
authenticates the caller (the resolved `User` is a parameter here);
response-model construction and serialization are excluded collaborators
(spec §1), so a handler slice ends where the service result is handed to
response building. -/

/-- Embedding of `TaxpayerImportResult` schema. -/
structure TaxpayerImportResult where
  successful : List Taxpayer
  failed : List (TaxpayerCreate × String)
  total_processed : Nat
  successful_count : Nat
  failed_count : Nat
  deriving DecidableEq, Repr

namespace routes

/-- Handler `GET /taxpayers/\x7btaxpayer_id\x7d` (`get_taxpayer`, routes
lines 80-103): `get_by_id`, `NotFound` if absent, then the record goes
straight into `TaxpayerDetailResponse.model_validate` — the body performs
no role or ownership check whatsoever. (The subsequent response decoration
reads `taxpayer.filings`, a relationship that is commented out of the
model; that access sits on the excluded serialization side of the slice
and involves no permission check either.) -/
def get_taxpayer (db : DBState) (taxpayer_id : Nat) (_current_user : User) :
    Except AppError Taxpayer :=
  match TaxpayerService.get_by_id db taxpayer_id with
  | none => .error (.notFound s!"Taxpayer {taxpayer_id} not found")
  | some tp => .ok tp

/-- Handler `GET /taxpayers/search/tin/\x7btin\x7d` (`search_by_tin`,
routes lines 184-205): `get_by_tin`, `NotFound` if absent, then an inline
ownership check — non-ADMIN callers with role ACCOUNTANT or EMPLOYER get
`403 Forbidden` when the employer of the record differs from their
organization — before the record is exposed. -/
def search_by_tin (db : DBState) (tin : String) (u : User) :
    Except AppError Taxpayer :=
  match TaxpayerService.get_by_tin db tin with
  | none => .error (.notFound s!"No taxpayer found with TIN {tin}")
  | some tp =>
    if u.role.value != "ADMIN"
       && (u.role.value == "ACCOUNTANT" || u.role.value == "EMPLOYER")
       && tp.employer_id != u.organization_id then
      .error (.forbidden "You do not have permission to view this taxpayer")
    else .ok tp

/-- Handler `POST /taxpayers/\x7btaxpayer_id\x7d/verify` (routes lines
127-135): the dependency `require_role(["ADMIN", "ACCOUNTANT"])` gates
the call, then the service runs with no `verification_data`. -/
def verify_taxpayer (db : DBState) (taxpayer_id : Nat) (u : User) :
    DBState × Except AppError Taxpayer :=
  match AuthService.require_role u ["ADMIN", "ACCOUNTANT"] with
  | .error e => (db, .error e)
  | .ok _ => TaxpayerService.verify_taxpayer db taxpayer_id u none

/-- Handler `POST /taxpayers/bulk` (routes lines 137-154): gated by
`require_role(["ADMIN", "ACCOUNTANT"])`; returns the two service lists
plus `total_processed = len(bulk_data.taxpayers)` and the two counts. -/
def bulk_create_taxpayers (db : DBState) (ds : List TaxpayerCreate) (u : User) :
    DBState × Except AppError TaxpayerImportResult :=
  match AuthService.require_role u ["ADMIN", "ACCOUNTANT"] with
  | .error e => (db, .error e)
  | .ok _ =>
    match TaxpayerService.bulk_create db ds u with
    | ((succ, failed), db1) =>
      (db1, .ok { successful := succ
                  failed := failed
                  total_processed := ds.length
                  successful_count := succ.length
                  failed_count := failed.length })

end routes

/-! Concrete fixtures for the scenario theorems. -/

/-- A fresh store/session. -/
def emptyDb : DBState :=
  { taxpayers := [], audit_logs := [], orgs := [], pending_taxpayers := [],
    pending_audit := [], commits := 0, clock := 0 }

/-- Template taxpayer row for concrete scenarios. -/
def sampleRow (idv : Nat) (emp : Option Nat) (tin : Option String)
    (xd : List (String × Int)) : Taxpayer :=
  { id := idv
    full_name := "John Chinedu"
    tin := tin
    bvn := none
    nin := none
    email := none
    phone_number := none
    address := none
    city := none
    state := "Lagos"
    tax_type := .PAYE
    business_name := none
    rc_number := none
    business_type := none
    industry := none
    employer_id := emp
    employment_status := some "employed"
    job_title := none
    employment_date := none
    status := .active
    is_verified := false
    verification_date := none
    last_filing_date := none
    extra_data := xd
    created_by := none
    updated_by := none
    created_at := idv
    updated_at := none }

def adminUser : User :=
  { id := 1, name := "Admin", email := "admin@x.com",
    password_hash := hash_password "adminpw", role := .ADMIN,
    organization_id := none, is_active := true }

/-- An ACCOUNTANT belonging to organization 1. -/
def accUserO1 : User :=
  { id := 2, name := "Acc", email := "acc@x.com",
    password_hash := hash_password "accpw", role := .ACCOUNTANT,
    organization_id := some 1, is_active := true }

/-- An ORGANIZATION-role user belonging to organization 1. -/
def orgUserO1 : User :=
  { id := 3, name := "Org", email := "org@x.com",
    password_hash := hash_password "orgpw", role := .ORGANIZATION,
    organization_id := some 1, is_active := true }

/-- An ACCOUNTANT with a null organization reference. -/
def accUserNoOrg : User :=
  { id := 4, name := "AccNull", email := "accnull@x.com",
    password_hash := hash_password "accnullpw", role := .ACCOUNTANT,
    organization_id := none, is_active := true }

/-- A taxpayer owned by organization 2 (id 10, tin 1234567890). -/
def tpOrg2 : Taxpayer :=
  sampleRow 10 (some 2) (some "1234567890") []

/-- A taxpayer owned by organization 1 (id 11, tin 2222222222). -/
def tpOrg1 : Taxpayer :=
  sampleRow 11 (some 1) (some "2222222222") []

/-- A taxpayer with a null employer reference (id 12, no tin). -/
def tpNoEmp : Taxpayer :=
  sampleRow 12 none none []

/-- Store holding `tpOrg2`, `tpOrg1` and `tpNoEmp`, organizations 1, 2. -/
def dbThree : DBState :=
  { emptyDb with taxpayers := [tpOrg2, tpOrg1, tpNoEmp], orgs := [1, 2], clock := 20 }

def exceptIsOk : Except AppError α → Bool
  | .ok _ => true
  | .error _ => false

instance {ε α : Type} [DecidableEq ε] [DecidableEq α] : DecidableEq (Except ε α)
  | .error e1, .error e2 =>
      if h : e1 = e2 then isTrue (by rw [h])
      else isFalse (by intro hh; injection hh; contradiction)
  | .error _, .ok _ => isFalse (by intro h; cases h)
  | .ok _, .error _ => isFalse (by intro h; cases h)
  | .ok a1, .ok a2 =>
      if h : a1 = a2 then isTrue (by rw [h])
      else isFalse (by intro hh; injection hh; contradiction)

/-! Claim theorems. -/

/-- C10: for an actor with role ACCOUNTANT or EMPLOYER whose own
organization reference is null, the ownership check used by update and
delete (`_check_permissions`) grants the action exactly on taxpayers whose
employer reference is also null (Python `None != None` is false, so no
`Forbidden` is raised), and denies every taxpayer with a non-null
employer reference. -/
theorem check_permissions_null_org_null_employer (tp : Taxpayer) (u : User)
    (action : String)
    (hrole : u.role = UserRole.ACCOUNTANT ∨ u.role = UserRole.EMPLOYER)
    (horg : u.organization_id = none) :
    (TaxpayerService.check_permissions tp u action = .ok () ↔ tp.employer_id = none) ∧
    (tp.employer_id ≠ none →
      TaxpayerService.check_permissions tp u action =
        .error (.forbidden s!"You do not have permission to {action} this taxpayer")) := by
  rcases hrole with hr | hr <;>
    cases hemp : tp.employer_id <;>
      simp [TaxpayerService.check_permissions, UserRole.value, hr, horg, hemp] <;>
        rfl

/-- C10 witness: the null-organization ACCOUNTANT is granted "update" on
the null-employer taxpayer and denied it on an organization-2 taxpayer. -/
theorem check_permissions_null_org_null_employer_w :
    (TaxpayerService.check_permissions tpNoEmp accUserNoOrg "update" = .ok () ↔
      tpNoEmp.employer_id = none) ∧
    (tpNoEmp.employer_id ≠ none →
      TaxpayerService.check_permissions tpNoEmp accUserNoOrg "update" =
        .error (.forbidden "You do not have permission to update this taxpayer")) :=
  check_permissions_null_org_null_employer tpNoEmp accUserNoOrg "update"
    (Or.inl rfl) rfl

/-- C9: whenever the session can see a taxpayer carrying a given non-null
TIN, `create` with that same TIN fails with `Conflict` and leaves the
store byte-for-byte unchanged: no new row, no audit entry, no modification
of the existing row. -/
theorem create_duplicate_tin_conflict (db : DBState) (d : TaxpayerCreate) (u : User)
    (t : String) (htin : d.tin = some t) (hne : t ≠ "")
    (hdup : ∃ tp ∈ db.visibleTaxpayers, tp.tin = some t) :
    TaxpayerService.create db d u =
      (db, .error (.conflict s!"Taxpayer with TIN {t} already exists")) := by
  obtain ⟨tp, hmem, htp⟩ := hdup
  have hfind : (TaxpayerService.get_by_tin db t).isSome := by
    rw [TaxpayerService.get_by_tin, List.find?_isSome]
    exact ⟨tp, hmem, by simp [htp]⟩
  have htruthy : optStrTruthy d.tin = true := by
    have hE : t.isEmpty = false := by
      cases hcase : t.isEmpty with
      | false => rfl
      | true => exact absurd ((String.isEmpty_iff t).mp hcase) hne
    rw [htin]
    simp [optStrTruthy, hE]
  rw [TaxpayerService.create, htruthy, htin]
  simp only [Option.getD_some]
  cases hg : TaxpayerService.get_by_tin db t with
  | none => rw [hg] at hfind; simp at hfind
  | some tp0 => simp

/-- C9 witness: creating a second taxpayer with TIN 1234567890 against the
concrete store fails with `Conflict` and returns the store unchanged. -/
theorem create_duplicate_tin_conflict_w :
    TaxpayerService.create dbThree
        { full_name := "Second", tin := some "1234567890", state := "Lagos",
          employment_status := some "employed" } accUserO1 =
      (dbThree, .error (.conflict "Taxpayer with TIN 1234567890 already exists")) :=
  create_duplicate_tin_conflict dbThree
    { full_name := "Second", tin := some "1234567890", state := "Lagos",
      employment_status := some "employed" } accUserO1 "1234567890" rfl
    (by decide) ⟨tpOrg2, by decide, by decide⟩

def c1Data : TaxpayerCreate :=
  { full_name := "A One", tin := some "1111111111", state := "Lagos",
    employment_status := some "employed" }

/-- C1 (code bug): `create` succeeds, yet when it returns the taxpayer row
is already committed (durable) while the "create" audit entry is only
flushed, never committed — and once `get_db` closes the request session,
the row is durable with no audit entry at all. The same-transaction
atomicity the spec (and the comment inside `AuditService.log_action`: "let the
main transaction handle it") require is violated because `create` commits
at line 90 and only then calls `log_action` (line 94); compare `delete`
(lines 190-211), which appends the audit entry before its single
commit. -/
theorem create_row_durable_without_audit :
    exceptIsOk (TaxpayerService.create emptyDb c1Data adminUser).2 = true ∧
    ((TaxpayerService.create emptyDb c1Data adminUser).1.taxpayers.map
        Taxpayer.full_name) = ["A One"] ∧
    (TaxpayerService.create emptyDb c1Data adminUser).1.audit_logs = [] ∧
    ((TaxpayerService.create emptyDb c1Data adminUser).1.pending_audit.map
        AuditLog.action) = ["create"] ∧
    (((TaxpayerService.create emptyDb c1Data adminUser).1.sessionClose).taxpayers.map
        Taxpayer.full_name) = ["A One"] ∧
    ((TaxpayerService.create emptyDb c1Data adminUser).1.sessionClose).allAudit = [] := by
  decide

/-- C3 (code bug): the by-id read handler applies no per-record policy
check: an ACCOUNTANT of organization 1 fetching the organization-2
taxpayer by id gets the record exposed (`ok`), not `Forbidden` — while the
sibling `search_by_tin` handler does apply the check and refuses the very
same record to the very same caller. -/
theorem get_taxpayer_route_skips_policy_check :
    accUserO1.role = UserRole.ACCOUNTANT ∧
    accUserO1.organization_id = some 1 ∧
    tpOrg2.employer_id = some 2 ∧
    routes.get_taxpayer dbThree 10 accUserO1 = .ok tpOrg2 ∧
    routes.search_by_tin dbThree "1234567890" accUserO1 =
      .error (.forbidden "You do not have permission to view this taxpayer") := by
  decide

/-- Store holding one taxpayer (id 10) whose extension map `extra_data`
is \x7ba: 1\x7d. -/
def dbExtA1 : DBState :=
  { emptyDb with taxpayers := [sampleRow 10 none none [("a", 1)]], clock := 20 }

def c4Patch : TaxpayerUpdate :=
  { metadata := some [("b", 2)] }

/-- C4 (code bug): patching the taxpayer whose extension map is \x7ba: 1\x7d
with extension value \x7bb: 2\x7d does not produce \x7ba: 1, b: 2\x7d: the
merge logic in `update` addresses `taxpayer.metadata` — on the
store-loaded row that name resolves to the declarative `MetaData` class
attribute, not the mapped extension column `extra_data` — so the
operation dies with `AttributeError` on `taxpayer.metadata.copy()` before
writing anything, and the stored extension map stays \x7ba: 1\x7d. -/
theorem update_never_merges_extension_map :
    TaxpayerService.update dbExtA1 10 c4Patch adminUser =
      (dbExtA1, .error (.attributeError "MetaData object has no attribute copy")) ∧
    (((TaxpayerService.update dbExtA1 10 c4Patch adminUser).1.taxpayers.find?
        (fun t => t.id == 10)).map Taxpayer.extra_data) = some [("a", 1)] ∧
    (((TaxpayerService.update dbExtA1 10 c4Patch adminUser).1.taxpayers.find?
        (fun t => t.id == 10)).map Taxpayer.extra_data) ≠ some [("a", 1), ("b", 2)] := by
  decide

theorem mem_insertByCreatedDesc {x t : Taxpayer} {l : List Taxpayer} :
    t ∈ insertByCreatedDesc x l ↔ t = x ∨ t ∈ l := by
  induction l with
  | nil => simp [insertByCreatedDesc]
  | cons y ys ih =>
      by_cases h : x.created_at ≤ y.created_at <;>
        · simp [insertByCreatedDesc, h, ih]
          try tauto

theorem mem_sortByCreatedDesc {t : Taxpayer} {l : List Taxpayer} :
    t ∈ sortByCreatedDesc l ↔ t ∈ l := by
  induction l with
  | nil => simp [sortByCreatedDesc]
  | cons x xs ih => simp [sortByCreatedDesc, mem_insertByCreatedDesc, ih]

/-- C2 (amended): for every caller whose role is ACCOUNTANT or EMPLOYER
and every filter, `list` never returns a taxpayer whose employer reference
differs from the organization reference of the caller — out-of-scope rows are
silently excluded, not errors. (The phrase "every non-ADMIN caller" in the claim is
too wide: `_apply_filters` leaves ORGANIZATION-role callers entirely
unfiltered, see the counterexample.) -/
theorem list_scoped_for_accountant_employer (db : DBState) (f : TaxpayerFilter)
    (u : User) (skip limit : Nat)
    (hrole : u.role = UserRole.ACCOUNTANT ∨ u.role = UserRole.EMPLOYER) :
    ∀ t ∈ (TaxpayerService.get_all db f u skip limit).1,
      t.employer_id = u.organization_id := by
  intro t ht
  have h1 : t ∈ sortByCreatedDesc (db.visibleTaxpayers.filter (filterPred f u)) :=
    List.drop_subset _ _ (List.take_subset _ _ ht)
  rw [mem_sortByCreatedDesc] at h1
  have h2 := (List.mem_filter.mp h1).2
  rw [filterPred] at h2
  rcases hrole with hr | hr <;> rw [hr] at h2 <;>
    · simp only [UserRole.value, Bool.and_eq_true] at h2
      have hA := h2.1.1.1.1.1.1.1.1
      simp at hA
      exact hA

/-- C2 counterexample: an ORGANIZATION-role caller of organization 1 is
not ADMIN, yet `list` with the default filter returns the organization-2
taxpayer — the claimed "never returns a Taxpayer whose employer reference
differs from the organization of the caller" fails for this non-ADMIN role. -/
theorem list_unscoped_for_organization_role :
    orgUserO1.role = UserRole.ORGANIZATION ∧
    orgUserO1.organization_id = some 1 ∧
    tpOrg2.employer_id = some 2 ∧
    tpOrg2 ∈ (TaxpayerService.get_all dbThree {} orgUserO1 0 100).1 ∧
    tpOrg2.employer_id ≠ orgUserO1.organization_id := by
  decide

/-- C2 witness: the list for the organization-1 ACCOUNTANT contains `tpOrg1`,
and the theorem yields its employer equals the organization of the caller. -/
theorem list_scoped_for_accountant_employer_w :
    tpOrg1.employer_id = accUserO1.organization_id :=
  list_scoped_for_accountant_employer dbThree {} accUserO1 0 100
    (Or.inl rfl) tpOrg1 (by decide)

/-- C7 counterexample: the organization-1 ACCOUNTANT verifies the
null-employer taxpayer successfully (the ownership guard is skipped when
`taxpayer.employer_id` is falsy) although that record does not belong to
the organization of the actor — where the claim demands `Forbidden` on all
records outside the own organization of the actor. -/
theorem verify_succeeds_on_foreign_null_employer :
    accUserO1.role = UserRole.ACCOUNTANT ∧
    accUserO1.organization_id = some 1 ∧
    tpNoEmp.employer_id = none ∧
    exceptIsOk (routes.verify_taxpayer dbThree 12 accUserO1).2 = true ∧
    (((routes.verify_taxpayer dbThree 12 accUserO1).1.taxpayers.find?
        (fun t => t.id == 12)).map Taxpayer.is_verified) = some true := by
  decide

/-- C7 (amended): `verify` fails with `Forbidden` whenever the actor
role is neither ADMIN nor ACCOUNTANT; an ACCOUNTANT succeeds exactly on
records whose employer reference is null or equal to the actor
organization, and gets `Forbidden` on every record assigned to a different
organization. -/
theorem verify_role_and_ownership (db : DBState) (idv : Nat) (u : User) (tp : Taxpayer)
    (hfound : TaxpayerService.get_by_id db idv = some tp) :
    (u.role ≠ UserRole.ADMIN ∧ u.role ≠ UserRole.ACCOUNTANT →
       (TaxpayerService.verify_taxpayer db idv u none).2 =
         .error (.forbidden "You do not have permission to verify taxpayers")) ∧
    (u.role = UserRole.ACCOUNTANT →
       (exceptIsOk (TaxpayerService.verify_taxpayer db idv u none).2 = true ↔
         tp.employer_id = none ∨ tp.employer_id = u.organization_id)) := by
  constructor
  · rintro ⟨h1, h2⟩
    cases hr : u.role with
    | ADMIN => exact absurd hr h1
    | ACCOUNTANT => exact absurd hr h2
    | EMPLOYER =>
        simp [TaxpayerService.verify_taxpayer, hfound, UserRole.value, hr]
    | ORGANIZATION =>
        simp [TaxpayerService.verify_taxpayer, hfound, UserRole.value, hr]
  · intro hr
    cases hemp : tp.employer_id with
    | none =>
        simp [TaxpayerService.verify_taxpayer, hfound, UserRole.value, hr, hemp,
          exceptIsOk]
    | some e =>
        by_cases horg : (some e : Option Nat) = u.organization_id <;>
          simp [TaxpayerService.verify_taxpayer, hfound, UserRole.value, hr, hemp,
            horg, exceptIsOk]

/-- C7 witness: instantiated for the organization-1 ACCOUNTANT and the
organization-2 taxpayer. -/
theorem verify_role_and_ownership_w :
    (accUserO1.role ≠ UserRole.ADMIN ∧ accUserO1.role ≠ UserRole.ACCOUNTANT →
       (TaxpayerService.verify_taxpayer dbThree 10 accUserO1 none).2 =
         .error (.forbidden "You do not have permission to verify taxpayers")) ∧
    (accUserO1.role = UserRole.ACCOUNTANT →
       (exceptIsOk (TaxpayerService.verify_taxpayer dbThree 10 accUserO1 none).2 = true ↔
         tpOrg2.employer_id = none ∨ tpOrg2.employer_id = accUserO1.organization_id)) :=
  verify_role_and_ownership dbThree 10 accUserO1 tpOrg2 (by decide)

/-- A user whose account is inactive and whose stored hash matches the
password "rightpw". -/
def inactiveUser : User :=
  { id := 5, name := "In", email := "inactive@x.com",
    password_hash := hash_password "rightpw", role := .ACCOUNTANT,
    organization_id := none, is_active := false }

def authDbBoth : AuthDB :=
  { users := [inactiveUser, accUserO1] }

/-- C8 counterexample: the looked-up account exists and is inactive, yet
with a wrong password `authenticate` returns `none` — not `Unauthorized`
— because the code verifies the password before it checks the active
flag; the claimed "before and regardless of password verification" fails
here. -/
theorem authenticate_inactive_checked_after_password :
    (authDbBoth.users.find? (fun u => u.email == "inactive@x.com") = some inactiveUser) ∧
    inactiveUser.is_active = false ∧
    AuthService.authenticate_user authDbBoth "inactive@x.com" "wrongpw" = .ok none := by
  decide

/-- C8 (amended): `authenticate(email, password)` returns `none` when no
user has that email; when a user is found it first verifies the password
and returns `none` on mismatch (even for inactive accounts); only after a
successful password match does it fail with `Unauthorized` if the account
is inactive, and otherwise it returns the user. -/
theorem authenticate_user_spec (db : AuthDB) (email password : String) :
    (db.users.find? (fun u => u.email == email) = none →
       AuthService.authenticate_user db email password = .ok none) ∧
    ∀ u, db.users.find? (fun u0 => u0.email == email) = some u →
      (verify_password password u.password_hash = false →
         AuthService.authenticate_user db email password = .ok none) ∧
      (verify_password password u.password_hash = true → u.is_active = false →
         AuthService.authenticate_user db email password =
           .error (.unauthorized "User account is inactive")) ∧
      (verify_password password u.password_hash = true → u.is_active = true →
         AuthService.authenticate_user db email password = .ok (some u)) := by
  constructor
  · intro h
    simp [AuthService.authenticate_user, h]
  · intro u hu
    refine ⟨?_, ?_, ?_⟩
    · intro hv
      simp [AuthService.authenticate_user, hu, hv]
    · intro hv hact
      simp [AuthService.authenticate_user, hu, hv, hact]
    · intro hv hact
      simp [AuthService.authenticate_user, hu, hv, hact]

/-- C8 witness: the active account with the matching password
authenticates to itself. -/
theorem authenticate_user_spec_w :
    AuthService.authenticate_user authDbBoth "acc@x.com" "accpw" = .ok (some accUserO1) :=
  ((authenticate_user_spec authDbBoth "acc@x.com" "accpw").2 accUserO1
    (by decide)).2.2 (by decide) rfl

theorem log_action_effects (db : DBState) (uid : Nat) (et : String) (eid : Nat)
    (a s : String) :
    (AuditService.log_action db uid et eid a s).2.commits = db.commits ∧
    (AuditService.log_action db uid et eid a s).2.allAudit.length
      = db.allAudit.length + 1 := by
  refine ⟨rfl, ?_⟩
  simp [AuditService.log_action, DBState.allAudit]
  try omega

theorem commit_effects (db : DBState) :
    db.commit.commits = db.commits + 1 ∧
    db.commit.allAudit.length = db.allAudit.length := by
  simp [DBState.commit, DBState.allAudit]

theorem createCommitAndLog_effects (db : DBState) (tp : Taxpayer) (u : User) :
    exceptIsOk (TaxpayerService.createCommitAndLog db tp u).2 = true ∧
    (TaxpayerService.createCommitAndLog db tp u).1.commits = db.commits + 1 ∧
    (TaxpayerService.createCommitAndLog db tp u).1.allAudit.length
      = db.allAudit.length + 1 := by
  refine ⟨rfl, rfl, ?_⟩
  simp [TaxpayerService.createCommitAndLog, AuditService.log_action, DBState.commit,
    DBState.allAudit]
  try omega

theorem createWithEmployer_effects (db : DBState) (d : TaxpayerCreate) (u : User) :
    ((TaxpayerService.createWithEmployer db d u).1 = db ∧
      exceptIsOk (TaxpayerService.createWithEmployer db d u).2 = false) ∨
    (exceptIsOk (TaxpayerService.createWithEmployer db d u).2 = true ∧
      (TaxpayerService.createWithEmployer db d u).1.commits = db.commits + 1 ∧
      (TaxpayerService.createWithEmployer db d u).1.allAudit.length
        = db.allAudit.length + 1) := by
  rw [TaxpayerService.createWithEmployer]
  split
  · split
    · exact Or.inl ⟨rfl, rfl⟩
    · split
      · exact Or.inl ⟨rfl, rfl⟩
      · exact Or.inr (createCommitAndLog_effects db _ u)
  · exact Or.inr (createCommitAndLog_effects db _ u)

theorem create_effects (db : DBState) (d : TaxpayerCreate) (u : User) :
    ((TaxpayerService.create db d u).1 = db ∧
      exceptIsOk (TaxpayerService.create db d u).2 = false) ∨
    (exceptIsOk (TaxpayerService.create db d u).2 = true ∧
      (TaxpayerService.create db d u).1.commits = db.commits + 1 ∧
      (TaxpayerService.create db d u).1.allAudit.length
        = db.allAudit.length + 1) := by
  rw [TaxpayerService.create]
  split
  · dsimp only
    split
    · exact Or.inl ⟨rfl, rfl⟩
    · exact createWithEmployer_effects db d u
  · exact createWithEmployer_effects db d u

theorem bulk_foldl_effects (u : User) (ds : List TaxpayerCreate) :
    ∀ (succ : List Taxpayer) (failed : List (TaxpayerCreate × String)) (db : DBState),
      ((ds.foldl (TaxpayerService.bulkStep u) (succ, failed, db)).2.2.commits
          + succ.length
        = db.commits
          + (ds.foldl (TaxpayerService.bulkStep u) (succ, failed, db)).1.length) ∧
      ((ds.foldl (TaxpayerService.bulkStep u) (succ, failed, db)).2.2.allAudit.length
          + 2 * succ.length
        = db.allAudit.length
          + 2 * (ds.foldl (TaxpayerService.bulkStep u) (succ, failed, db)).1.length) ∧
      ((ds.foldl (TaxpayerService.bulkStep u) (succ, failed, db)).1.length
          + (ds.foldl (TaxpayerService.bulkStep u) (succ, failed, db)).2.1.length
        = succ.length + failed.length + ds.length) := by
  induction ds with
  | nil => intro succ failed db; simp
  | cons d ds ih =>
      intro succ failed db
      rw [List.foldl_cons]
      have hcr := create_effects db d u
      rcases hc : TaxpayerService.create db d u with ⟨db1, r⟩
      rw [hc] at hcr
      cases r with
      | ok tp =>
          have hstep : TaxpayerService.bulkStep u (succ, failed, db) d
              = (succ ++ [tp], failed,
                 (AuditService.log_action db1 u.id "taxpayer" tp.id "bulk_create"
                   "data").2) := by
            simp [TaxpayerService.bulkStep, hc]
          rw [hstep]
          rcases hcr with ⟨_, hnotok⟩ | ⟨_, hcomm, haud⟩
          · have hx : (true : Bool) = false := hnotok
            cases hx
          · have hcomm1 : db1.commits = db.commits + 1 := hcomm
            have haud1 : db1.allAudit.length = db.allAudit.length + 1 := haud
            obtain ⟨hl1, hl2⟩ :=
              log_action_effects db1 u.id "taxpayer" tp.id "bulk_create" "data"
            obtain ⟨hi1, hi2, hi3⟩ := ih (succ ++ [tp]) failed
              (AuditService.log_action db1 u.id "taxpayer" tp.id "bulk_create" "data").2
            simp only [List.length_append, List.length_cons, List.length_nil]
              at hi1 hi2 hi3 ⊢
            refine ⟨by omega, by omega, by omega⟩
      | error e =>
          have hstep : TaxpayerService.bulkStep u (succ, failed, db) d
              = (succ, failed ++ [(d, errStr e)], db1) := by
            simp [TaxpayerService.bulkStep, hc]
          rw [hstep]
          rcases hcr with ⟨hstate, _⟩ | ⟨hok, _, _⟩
          · have hstate1 : db1 = db := hstate
            rw [hstate1]
            obtain ⟨hi1, hi2, hi3⟩ := ih succ (failed ++ [(d, errStr e)]) db
            simp only [List.length_append, List.length_cons, List.length_nil]
              at hi1 hi2 hi3 ⊢
            refine ⟨by omega, by omega, by omega⟩
          · have hx : (false : Bool) = true := hok
            cases hx

/-- C5 counterexample: a batch with one (successful) item ends with 2
commits — one inside the per-item `create` plus the batch-final one — and 2
audit entries for the single item (actions "create" and "bulk_create"),
contradicting "exactly one audit entry per successful item and exactly
one commit, with no commit between individual items" (the fold state after
the item, before the batch-final commit, already shows 1 commit). -/
theorem bulk_create_not_single_commit_single_audit :
    (TaxpayerService.bulk_create emptyDb [c1Data] adminUser).1.1.length = 1 ∧
    (([c1Data].foldl (TaxpayerService.bulkStep adminUser) ([], [], emptyDb)).2.2.commits
      = 1) ∧
    (TaxpayerService.bulk_create emptyDb [c1Data] adminUser).2.commits = 2 ∧
    (TaxpayerService.bulk_create emptyDb [c1Data] adminUser).2.commits ≠ 1 ∧
    ((TaxpayerService.bulk_create emptyDb [c1Data] adminUser).2.allAudit.map
        AuditLog.action) = ["create", "bulk_create"] ∧
    (TaxpayerService.bulk_create emptyDb [c1Data] adminUser).2.allAudit.length ≠ 1 := by
  decide

/-- C5 (amended): for every input batch, `bulk_create` issues one commit
inside the `create` of each successful item plus a single final commit after
the batch (successes + 1 in total), and stages two audit entries per
successful item (one "create" from the shared `create` path, one
"bulk_create" from the batch loop); failed items contribute no commit and
no audit entry. -/
theorem bulk_create_commits_and_audits (db : DBState) (ds : List TaxpayerCreate)
    (u : User) :
    (TaxpayerService.bulk_create db ds u).2.commits
      = db.commits + (TaxpayerService.bulk_create db ds u).1.1.length + 1 ∧
    (TaxpayerService.bulk_create db ds u).2.allAudit.length
      = db.allAudit.length + 2 * (TaxpayerService.bulk_create db ds u).1.1.length := by
  rw [TaxpayerService.bulk_create]
  have h := bulk_foldl_effects u ds [] [] db
  rcases hf : ds.foldl (TaxpayerService.bulkStep u) ([], [], db) with ⟨succ, failed, db1⟩
  rw [hf] at h
  have hcom := commit_effects db1
  simp only [List.length_nil] at h
  exact ⟨by simp only []; omega, by simp only []; omega⟩

def bIn1 : TaxpayerCreate :=
  { full_name := "A One", tin := some "1111111111", state := "Lagos",
    employment_status := some "employed" }

def bIn2 : TaxpayerCreate :=
  { full_name := "B Two", tin := some "1111111111", state := "Lagos",
    employment_status := some "employed" }

def bIn3 : TaxpayerCreate :=
  { full_name := "C Three", tin := some "3333333333", state := "Lagos",
    employment_status := some "employed" }

/-- C6: every item of a batch is attempted independently and lands in
exactly one of the two result lists (successes + failures = batch size,
with a failure captured as its input and error message rather than
aborting the rest); and concretely, a 3-item batch whose second item
duplicates the tax-id of the first item yields 2 successes and 1 failure in
input order, `total_processed = 3`, and the 2 successful rows committed
and queryable afterwards. -/
theorem bulk_create_partial_failure_independent :
    (∀ (db : DBState) (ds : List TaxpayerCreate) (u : User),
        (TaxpayerService.bulk_create db ds u).1.1.length
          + (TaxpayerService.bulk_create db ds u).1.2.length = ds.length) ∧
    (((routes.bulk_create_taxpayers emptyDb [bIn1, bIn2, bIn3] accUserO1).2.toOption.map
        TaxpayerImportResult.total_processed) = some 3) ∧
    (((routes.bulk_create_taxpayers emptyDb [bIn1, bIn2, bIn3] accUserO1).2.toOption.map
        (fun r => r.successful.map Taxpayer.full_name)) = some ["A One", "C Three"]) ∧
    (((routes.bulk_create_taxpayers emptyDb [bIn1, bIn2, bIn3] accUserO1).2.toOption.map
        (fun r => r.failed.map (fun p => p.1.full_name))) = some ["B Two"]) ∧
    (((routes.bulk_create_taxpayers emptyDb [bIn1, bIn2, bIn3] accUserO1).2.toOption.map
        TaxpayerImportResult.successful_count) = some 2) ∧
    (((routes.bulk_create_taxpayers emptyDb [bIn1, bIn2, bIn3] accUserO1).2.toOption.map
        TaxpayerImportResult.failed_count) = some 1) ∧
    (((routes.bulk_create_taxpayers emptyDb [bIn1, bIn2, bIn3] accUserO1).1.taxpayers.map
        Taxpayer.full_name) = ["A One", "C Three"]) ∧
    ((TaxpayerService.get_by_tin
        (routes.bulk_create_taxpayers emptyDb [bIn1, bIn2, bIn3] accUserO1).1
        "3333333333").isSome = true) := by
  refine ⟨?_, ?_⟩
  · intro db ds u
    rw [TaxpayerService.bulk_create]
    have h := (bulk_foldl_effects u ds [] [] db).2.2
    rcases hf : ds.foldl (TaxpayerService.bulkStep u) ([], [], db) with ⟨succ, failed, db1⟩
    rw [hf] at h
    simpa using h
  · decide

end Refond
